import Mathlib

/-!
Verification of the anti-bot resilient extraction orchestration layer of the
YouTube downloader HTTP service (`main.py`).

The Python source is shallowly embedded: dictionaries become association
lists over `String` keys, JSON values become the inductive `JVal`, wall-clock
instants and durations become rationals (fractional seconds), and the external
extraction engine (`yt_dlp.YoutubeDL.extract_info`) becomes a list of
per-call outcomes consumed one element per upstream call.  Definitions keep
the source's names.
-/

set_option autoImplicit false

namespace YTApi

/-- A JSON-like value, the shape of the dictionaries the service builds and
returns (`None` is `null`, Python lists are `arr`, nested dicts are `obj`). -/
inductive JVal where
  | null : JVal
  | str (s : String) : JVal
  | num (n : Int) : JVal
  | bool (b : Bool) : JVal
  | arr (xs : List JVal) : JVal
  | obj (fs : List (String × JVal)) : JVal

/-- Python truthiness (`if x:`) restricted to the values the service tests:
`None`, empty strings, zero, `False`, and empty collections are falsy. -/
def py_truthy : JVal → Bool
  | .null => false
  | .str s => s != ""
  | .num n => n != 0
  | .bool b => b
  | .arr [] => false
  | .arr (_ :: _) => true
  | .obj [] => false
  | .obj (_ :: _) => true

/-- First-match lookup in an association list, the embedding of `d[k]` /
`k in d` on a Python dict whose keys are unique. -/
def assocLookup {α : Type} : List (String × α) → String → Option α
  | [], _ => none
  | (k2, v) :: rest, k => if k2 = k then some v else assocLookup rest k

/-- `d[k] = v` on a Python dict: replace the existing binding in place, or
append a fresh one. -/
def assocInsert {α : Type} : List (String × α) → String → α → List (String × α)
  | [], k, v => [(k, v)]
  | (k2, v2) :: rest, k, v =>
      if k2 = k then (k, v) :: rest else (k2, v2) :: assocInsert rest k v

/-- `del d[k]` on a Python dict. -/
def assocErase {α : Type} : List (String × α) → String → List (String × α)
  | [], _ => []
  | (k2, v2) :: rest, k => if k2 = k then rest else (k2, v2) :: assocErase rest k

/-- `info.get(k, dflt)` on a Python dict. -/
def dictGet (d : List (String × JVal)) (k : String) (dflt : JVal) : JVal :=
  (assocLookup d k).getD dflt

/-- A field of a built response object: first-match lookup returning `none`
when the field is absent (distinguishing "absent" from "present but null"). -/
def fieldOf (resp : List (String × JVal)) (k : String) : Option JVal :=
  assocLookup resp k

/-- An HTTP error raised via `HTTPException(status_code, detail)`: the status
code and the (string- or object-shaped) `detail`. -/
structure HttpErr where
  status_code : Nat
  detail : JVal

/-! ## Cache store (`video_cache`, lines 105-129) -/

/-- One entry of `video_cache`: `{'info': info, 'expiry': expiry_time}`. -/
structure CacheEntry where
  info : List (String × JVal)
  expiry : ℚ

/-- The in-memory cache map `video_cache`. -/
abbrev Cache : Type := List (String × CacheEntry)

/-- `get_cache_key(url, quality="", format="")` builds the string
`f"{url}_{quality}_{format}"` and returns its MD5 hex digest.  The digest is
abstracted to its preimage string (MD5 is treated as injective; both callers
in the source pass only `url`, leaving quality/format at their defaults). -/
def get_cache_key (url : String) (quality : String := "") (fmt : String := "") : String :=
  url ++ "_" ++ quality ++ "_" ++ fmt

/-- `cache_video_info(url, info, expiry_minutes=30)`: store `info` under the
key for `url` with expiry `time.time() + expiry_minutes * 60`. -/
def cache_video_info (cache : Cache) (url : String) (info : List (String × JVal))
    (now : ℚ) (expiry_minutes : ℚ := 30) : Cache :=
  assocInsert cache (get_cache_key url) ⟨info, now + expiry_minutes * 60⟩

/-- `get_cached_video_info(url)`: return the cached info when present and
`time.time() < expiry`; when present but expired, delete the entry and
return `None`; when absent, return `None`.  The pair carries the (possibly
mutated) cache alongside the result. -/
def get_cached_video_info (cache : Cache) (url : String) (now : ℚ) :
    Option (List (String × JVal)) × Cache :=
  match assocLookup cache (get_cache_key url) with
  | some cached_data =>
      if now < cached_data.expiry then (some cached_data.info, cache)
      else (none, assocErase cache (get_cache_key url))
  | none => (none, cache)

/-! ## Rate limiter (`rate_limit` decorator, lines 83-103) -/

/-- Outcome of the admission check inside the `rate_limit` wrapper. -/
inductive RateDecision where
  | allowed : RateDecision
  | denied (wait_time : ℚ) : RateDecision
  deriving DecidableEq

/-- The admission logic of the `rate_limit(calls_per_minute)` wrapper body for
a resolved `client_ip`: if the caller has a recorded last request time and
`current_time - last < 60 / calls_per_minute`, deny carrying the remaining
wait `60 / calls_per_minute - time_diff` and leave `last_request_time`
unchanged (the exception is raised before the record is written); otherwise
record `current_time` as the caller's last request time and allow. -/
def rate_limit_check (calls_per_minute : ℚ) (state : List (String × ℚ))
    (client_ip : String) (current_time : ℚ) : RateDecision × List (String × ℚ) :=
  match assocLookup state client_ip with
  | some last =>
      let time_diff := current_time - last
      if time_diff < 60 / calls_per_minute then
        (.denied (60 / calls_per_minute - time_diff), state)
      else
        (.allowed, assocInsert state client_ip current_time)
  | none => (.allowed, assocInsert state client_ip current_time)

/-- `kwargs.get('client_ip', 'unknown')` in the `rate_limit` wrapper: the
caller identity is the value of the `client_ip` keyword argument when the
wrapped endpoint call carries one, else the constant `"unknown"`. -/
def rate_limit_client_key (kwargs : List (String × String)) : String :=
  (assocLookup kwargs "client_ip").getD "unknown"

/-- The full `rate_limit` gate: on denial, raise HTTP 429 carrying the wait
time (the human-readable message interpolates the wait formatted to one
decimal; the embedding carries the exact rational). -/
def rate_limit_gate (calls_per_minute : ℚ) (state : List (String × ℚ))
    (client_ip : String) (current_time : ℚ) :
    Except (Nat × ℚ) Unit × List (String × ℚ) :=
  match rate_limit_check calls_per_minute state client_ip current_time with
  | (.denied w, st) => (.error (429, w), st)
  | (.allowed, st) => (.ok (), st)

/-- `@rate_limit(calls_per_minute=30)` on `/video/info`. -/
def video_info_calls_per_minute : ℚ := 30

/-- `@rate_limit(calls_per_minute=20)` on `/video/download`. -/
def video_download_calls_per_minute : ℚ := 20

/-- Declared keyword parameters of the `/video/info` endpoint function
(`url`, `include_formats`, `force_extract`, `request`): the names the HTTP
framework can pass to the `rate_limit` wrapper as `kwargs`. -/
def video_info_kwarg_names : List String :=
  ["url", "include_formats", "force_extract", "request"]

/-- Declared keyword parameters of the `/video/download` endpoint function. -/
def video_download_kwarg_names : List String :=
  ["url", "quality", "format", "force_extract", "request"]

/-! ## URL normalization (`normalize_youtube_url`, lines 70-81)

Python string operations are embedded over `List Char` so that splitting and
substring search compute by structural recursion. -/

/-- Boolean test that `sub` is an initial segment of `s`. -/
def isPrefixB : List Char → List Char → Bool
  | [], _ => true
  | _ :: _, [] => false
  | a :: as, b :: bs => a == b && isPrefixB as bs

/-- Python's `sub in s` substring containment on character lists. -/
def containsSub (sub : List Char) : List Char → Bool
  | [] => isPrefixB sub []
  | c :: rest => isPrefixB sub (c :: rest) || containsSub sub rest

/-- Python's `s in t` on the service's strings. -/
def strContains (t : String) (s : String) : Bool :=
  containsSub s.data t.data

/-- Python's `s.split(sep)` for a single-character separator: never returns
an empty list (`"".split(sep) == ['']`). -/
def pySplit (sep : Char) : List Char → List (List Char)
  | [] => [[]]
  | c :: rest =>
      match pySplit sep rest with
      | [] => [[]]
      | g :: gs => if c == sep then [] :: g :: gs else (c :: g) :: gs

/-- `normalize_youtube_url(url)`: `youtu.be` URLs are rewritten to
`https://www.youtube.com/watch?v={video_id}` where the id is
`url.split('/')[-1].split('?')[0]`; URLs containing both `youtube.com` and
`v=` are returned unchanged; every other URL is returned unchanged. -/
def normalize_youtube_url (url : List Char) : List Char :=
  if containsSub "youtu.be".data url then
    let video_id := (pySplit '?' ((pySplit '/' url).getLastD [])).headD []
    "https://www.youtube.com/watch?v=".data ++ video_id
  else if containsSub "youtube.com".data url && containsSub "v=".data url then
    url
  else
    url

/-- URL normalization lifted back to `String`, as applied by the endpoints
(`url = normalize_youtube_url(url)`). -/
def normalizeUrlStr (url : String) : String :=
  (normalize_youtube_url url.data).asString

/-! ## The extraction engine

`yt_dlp.YoutubeDL(...).extract_info(url, download=False)` is opaque: one
upstream call either returns a structured result, returns `None` (with
`ignoreerrors` set), raises `yt_dlp.utils.DownloadError`, or raises some
other exception.  A run of the service consumes a list of such per-call
outcomes, one element per upstream call. -/

/-- Outcome of one upstream `extract_info` call. -/
inductive EngineOutcome where
  | success (info : List (String × JVal)) : EngineOutcome
  | noneInfo : EngineOutcome
  | dlError (msg : String) : EngineOutcome
  | otherError (msg : String) : EngineOutcome

/-- The error-message marker for YouTube's bot verification wall. -/
def bot_check_phrase : String := "Sign in to confirm you\x27re not a bot"

/-- Result of a core routine: a structured result, a raised
`HTTPException`, or `hang`, meaning the supplied engine-outcome list was
exhausted while the code would have made a further upstream call. -/
inductive ExtractOutcome where
  | ok (info : List (String × JVal)) : ExtractOutcome
  | err (e : HttpErr) : ExtractOutcome
  | hang : ExtractOutcome

/-- The 403 detail raised when all three alternative methods fail
(lines 256-264). -/
def sign_in_alt_detail : JVal :=
  .obj [("error", .str "Sign-in required"),
    ("message", .str "This video requires sign-in verification and cannot be accessed through automated means"),
    ("suggestion", .str "Try a different video or check if the video has age restrictions"),
    ("workaround", .str "Some videos may work later due to YouTube\x27s rotating restrictions")]

/-- The sequential attempts of `try_alternative_extraction` (lines 187-264):
`n` pinned-client methods remain; each makes one upstream call, returns on a
non-`None` result, and swallows any exception or `None` to move on. -/
def alt_attempts : Nat → List EngineOutcome → ExtractOutcome × Nat
  | 0, _ => (.err ⟨403, sign_in_alt_detail⟩, 0)
  | _ + 1, [] => (.hang, 0)
  | n + 1, o :: rest =>
      match o with
      | .success info => (.ok info, 1)
      | _ =>
          let (r, c) := alt_attempts n rest
          (r, c + 1)

/-- `try_alternative_extraction(url)`: three single-shot methods (android
client, ios client, web/embed client), then the structured 403. -/
def try_alternative_extraction (engine : List EngineOutcome) : ExtractOutcome × Nat :=
  alt_attempts 3 engine

/-- `extract_video_info(url)` (lines 131-185): one upstream call.  A `None`
result raises `HTTPException(400, "Could not extract...")` inside the `try`
block, but `HTTPException` is an `Exception` subclass and not a
`DownloadError`, so the catch-all `except Exception` (lines 183-185)
intercepts it and re-raises the 500 "Internal server error while processing
video." — that 500 is what the caller observes.  A `DownloadError`
mentioning the bot wall defers to `try_alternative_extraction`,
`Private video` is a 403, `Video unavailable` a 404, anything else a 400
(these are raised inside the `except DownloadError` handler, so the sibling
`except Exception` does not intercept them); any other exception from the
engine becomes the same 500.  The second component counts upstream calls. -/
def extract_video_info (engine : List EngineOutcome) : ExtractOutcome × Nat :=
  match engine with
  | [] => (.hang, 0)
  | o :: rest =>
      match o with
      | .success info => (.ok info, 1)
      | .noneInfo =>
          (.err ⟨500, .str "Internal server error while processing video."⟩, 1)
      | .dlError msg =>
          if strContains msg bot_check_phrase then
            let (r, c) := try_alternative_extraction rest
            (r, c + 1)
          else if strContains msg "Private video" then
            (.err ⟨403, .str "This video is private and cannot be accessed."⟩, 1)
          else if strContains msg "Video unavailable" then
            (.err ⟨404, .str "This video is unavailable or has been deleted."⟩, 1)
          else
            (.err ⟨400, .str ("Error extracting video info: " ++ msg)⟩, 1)
      | .otherError _ =>
          (.err ⟨500, .str "Internal server error while processing video."⟩, 1)

/-! ## `/video/info` (lines 315-376) -/

/-- Result of an endpoint call: a JSON response body, a raised
`HTTPException`, or `hang` (engine-outcome list exhausted). -/
inductive HResult where
  | resp (fields : List (String × JVal)) : HResult
  | err (e : HttpErr) : HResult
  | hang : HResult

/-- `fmt.get('vcodec') != 'none'` is false exactly on the string `"none"`. -/
def is_str_none : JVal → Bool
  | .str s => s == "none"
  | _ => false

/-- One entry built by `get_download_formats` (lines 266-286). -/
def format_entry (ffs : List (String × JVal)) : JVal :=
  .obj [("format_id", dictGet ffs "format_id" .null),
    ("ext", dictGet ffs "ext" .null),
    ("quality", dictGet ffs "quality" (.str "N/A")),
    ("filesize", dictGet ffs "filesize" .null),
    ("vcodec", dictGet ffs "vcodec" .null),
    ("acodec", dictGet ffs "acodec" .null),
    ("fps", dictGet ffs "fps" .null),
    ("width", dictGet ffs "width" .null),
    ("height", dictGet ffs "height" .null),
    ("url", dictGet ffs "url" .null)]

/-- `get_download_formats(info)`: keep the formats with a video or audio
codec (the extractor yields dict-shaped entries; others are skipped). -/
def get_download_formats (info : List (String × JVal)) : List JVal :=
  match assocLookup info "formats" with
  | some (.arr fmts) =>
      fmts.filterMap fun f =>
        match f with
        | .obj ffs =>
            if !is_str_none (dictGet ffs "vcodec" .null)
                || !is_str_none (dictGet ffs "acodec" .null) then
              some (format_entry ffs)
            else none
        | _ => none
  | _ => []

/-- The shaped `video_info` dict of a fresh `/video/info` response
(lines 349-364). -/
def video_info_fields (info : List (String × JVal)) (url' : String) :
    List (String × JVal) :=
  [("cached", .bool false),
   ("id", dictGet info "id" (.str "Unknown ID")),
   ("title", dictGet info "title" (.str "Unknown Title")),
   ("description", dictGet info "description" .null),
   ("duration", dictGet info "duration" .null),
   ("view_count", dictGet info "view_count" .null),
   ("like_count", dictGet info "like_count" .null),
   ("uploader", dictGet info "uploader" .null),
   ("upload_date", dictGet info "upload_date" .null),
   ("thumbnail", dictGet info "thumbnail" .null),
   ("tags", dictGet info "tags" (.arr [])),
   ("categories", dictGet info "categories" (.arr [])),
   ("age_limit", dictGet info "age_limit" .null),
   ("webpage_url", dictGet info "webpage_url" (.str url'))]

/-- The cache-hit `/video/info` response `{"cached": True, **cached_info}`
(lines 335-338).  The spread overrides the literal `"cached"` key when the
cached dict carries one, so under first-match lookup the spread entries come
first and the tag last. -/
def cached_info_response (ci : List (String × JVal)) : List (String × JVal) :=
  ci ++ [("cached", .bool true)]

/-- The fresh-extraction tail of `/video/info`: extract, cache the raw
result, shape the response (appending `formats` when requested). -/
def video_info_fresh (url' : String) (include_formats : Bool) (cache : Cache)
    (now : ℚ) (engine : List EngineOutcome) : HResult × Cache × Nat :=
  match extract_video_info engine with
  | (.ok info, calls) =>
      let cache2 := cache_video_info cache url' info now
      let base := video_info_fields info url'
      let resp :=
        if include_formats then base ++ [("formats", .arr (get_download_formats info))]
        else base
      (.resp resp, cache2, calls)
  | (.err e, calls) => (.err e, cache, calls)
  | (.hang, calls) => (.hang, cache, calls)

/-- The `/video/info` endpoint body after the URL-validity regex guard
(line 325, a precondition of the modelled flow): normalize, consult the
cache unless `force_extract` (an empty cached dict is falsy and falls
through to extraction), else extract freshly.  Returns the response, the
cache after the call, and the number of upstream calls made. -/
def get_video_info (url : String) (include_formats force_extract : Bool)
    (cache : Cache) (now : ℚ) (engine : List EngineOutcome) :
    HResult × Cache × Nat :=
  let url' := normalizeUrlStr url
  match (if force_extract then (none, cache) else get_cached_video_info cache url' now) with
  | (some [], cache1) => video_info_fresh url' include_formats cache1 now engine
  | (some ci, cache1) => (.resp (cached_info_response ci), cache1, 0)
  | (none, cache1) => video_info_fresh url' include_formats cache1 now engine

/-! ## `/video/download` (lines 463-622) -/

/-- `QUALITY_OPTIONS` (lines 48-54), the valid quality keys and their
yt-dlp selector strings. -/
def QUALITY_OPTIONS : List (String × String) :=
  [("highest", "best"),
   ("high", "best[height<=720]"),
   ("medium", "best[height<=480]"),
   ("low", "best[height<=360]"),
   ("audio_only", "bestaudio/best")]

/-- `clients = ['android', 'ios', 'web', 'mweb']` (line 540), the rotation
sequence of impersonated client profiles. -/
def clients : List String := ["android", "ios", "web", "mweb"]

/-- `max_attempts = 3` (line 535). -/
def max_attempts : Nat := 3

/-- The structured 403 detail raised when attempts are exhausted on a
bot-verification error (lines 558-567), pointing at `/video/fallback`. -/
def sign_in_download_detail : JVal :=
  .obj [("error", .str "Sign-in verification required"),
    ("message", .str "This video requires sign-in verification and cannot be accessed"),
    ("suggestion", .str "Try a different video or check back later"),
    ("technical_info", .str "YouTube\x27s anti-bot measures are preventing access"),
    ("fallback", .str "Try using /video/fallback endpoint")]

/-- Classification of the final attempt's `DownloadError` message once
`attempts >= max_attempts` (lines 556-573). -/
def classify_download_error (msg : String) : HttpErr :=
  if strContains msg bot_check_phrase then ⟨403, sign_in_download_detail⟩
  else if strContains msg "Private video" then
    ⟨403, .str "This video is private and cannot be accessed."⟩
  else if strContains msg "Video unavailable" then
    ⟨404, .str "This video is unavailable or has been deleted."⟩
  else ⟨400, .str ("Error extracting video: " ++ msg)⟩

/-- Result of `get_download_info_enhanced`: a raw info dict, a raised
`HTTPException`, a re-raised non-`DownloadError` exception (`raise e`,
line 581), or `hang`. -/
inductive DlOutcome where
  | ok (info : List (String × JVal)) : DlOutcome
  | err (e : HttpErr) : DlOutcome
  | reraise (msg : String) : DlOutcome
  | hang : DlOutcome

/-- The `while attempts < max_attempts` loop of `get_download_info_enhanced`
(lines 533-584).  Each iteration selects `clients[attempts % len(clients)]`
and makes one upstream call.  A non-`None` result is cached and returned.  A
`None` result falls through with `attempts` unchanged (the real loop spins).
A `DownloadError` increments `attempts`; at exhaustion the last message is
classified, otherwise the worker sleeps one second and retries.  Any other
exception increments `attempts` likewise and is re-raised at exhaustion.
Returns the outcome, the cache, the per-call client-profile log, and the
number of one-second sleeps. -/
def download_attempt_loop (url' : String) (now : ℚ) :
    Cache → Nat → List EngineOutcome → DlOutcome × Cache × List String × Nat
  | cache, attempts, engine =>
    if attempts < max_attempts then
      match engine with
      | [] => (.hang, cache, [], 0)
      | o :: rest =>
          let current_client := clients.getD (attempts % clients.length) ""
          match o with
          | .success info =>
              (.ok info, cache_video_info cache url' info now, [current_client], 0)
          | .noneInfo =>
              let (r, c, log, s) := download_attempt_loop url' now cache attempts rest
              (r, c, current_client :: log, s)
          | .dlError msg =>
              if attempts + 1 ≥ max_attempts then
                (.err (classify_download_error msg), cache, [current_client], 0)
              else
                let (r, c, log, s) := download_attempt_loop url' now cache (attempts + 1) rest
                (r, c, current_client :: log, s + 1)
          | .otherError msg =>
              if attempts + 1 ≥ max_attempts then
                (.reraise msg, cache, [current_client], 0)
              else
                let (r, c, log, s) := download_attempt_loop url' now cache (attempts + 1) rest
                (r, c, current_client :: log, s + 1)
    else
      (.err ⟨400, .str "Could not extract video information after multiple attempts."⟩,
        cache, [], 0)

/-- `get_download_info_enhanced()` (line 533): the loop started at
`attempts = 0`. -/
def get_download_info_enhanced (url' : String) (cache : Cache) (now : ℚ)
    (engine : List EngineOutcome) : DlOutcome × Cache × List String × Nat :=
  download_attempt_loop url' now cache 0 engine

/-- The cache-hit `/video/download` response (lines 487-495): built from the
cached raw info with NO check of its `url` field. -/
def cached_download_response (ci : List (String × JVal)) (quality fmt : String) :
    List (String × JVal) :=
  [("cached", .bool true),
   ("title", dictGet ci "title" (.str "Unknown Title")),
   ("id", dictGet ci "id" (.str "Unknown ID")),
   ("duration", dictGet ci "duration" .null),
   ("download_url", dictGet ci "url" .null),
   ("quality", .str quality),
   ("format", .str fmt)]

/-- The fresh-path `download_info` dict (lines 589-602). -/
def download_info_response (info : List (String × JVal)) (quality fmt : String) :
    List (String × JVal) :=
  [("title", dictGet info "title" (.str "Unknown Title")),
   ("id", dictGet info "id" (.str "Unknown ID")),
   ("duration", dictGet info "duration" .null),
   ("filesize", dictGet info "filesize" .null),
   ("ext", dictGet info "ext" .null),
   ("format_id", dictGet info "format_id" .null),
   ("quality", .str quality),
   ("requested_format", .str fmt),
   ("download_url", dictGet info "url" .null),
   ("thumbnail", dictGet info "thumbnail" .null),
   ("cached", .bool false),
   ("extraction_method", .str "enhanced")]

/-- The 503 detail raised when the fresh path resolves no download URL
(lines 606-613). -/
def no_download_url_detail : JVal :=
  .obj [("error", .str "No download URL available"),
    ("message", .str "Unable to generate download link. The video may be protected or unavailable."),
    ("suggestion", .str "Try a different quality or format option")]

/-- The fresh-extraction tail of `/video/download`: run the enhanced loop,
shape `download_info`, and fail 503 when `download_info["download_url"]` is
falsy (lines 586-615).  A re-raised non-`DownloadError` exception falls to
the outer handler's generic 500 (lines 620-622). -/
def download_fresh (url' quality fmt : String) (cache : Cache) (now : ℚ)
    (engine : List EngineOutcome) : HResult × Cache × List String × Nat :=
  match get_download_info_enhanced url' cache now engine with
  | (.ok info, cache2, log, s) =>
      if py_truthy (dictGet info "url" .null) then
        (.resp (download_info_response info quality fmt), cache2, log, s)
      else
        (.err ⟨503, no_download_url_detail⟩, cache2, log, s)
  | (.err e, cache2, log, s) => (.err e, cache2, log, s)
  | (.reraise _, cache2, log, s) =>
      (.err ⟨500, .str "Internal server error while processing download request."⟩,
        cache2, log, s)
  | (.hang, cache2, log, s) => (.hang, cache2, log, s)

/-- The `/video/download` endpoint body after the URL-validity regex guard
(line 474, a precondition of the modelled flow): reject an unknown quality
with 400 before anything else, normalize, consult the cache unless
`force_extract` (returning the cached response with NO download-URL check on
a hit), else extract freshly.  The requested `format` is never validated; a
`"mp3"` format only reconfigures the engine options (lines 521-529), which
the opaque engine absorbs.  Returns the response, the cache after the call,
the client-profile log of upstream calls, and the sleep count. -/
def get_video_download_links (url quality fmt : String) (force_extract : Bool)
    (cache : Cache) (now : ℚ) (engine : List EngineOutcome) :
    HResult × Cache × List String × Nat :=
  if (assocLookup QUALITY_OPTIONS quality).isNone then
    (.err ⟨400, .str "Invalid quality option"⟩, cache, [], 0)
  else
    let url' := normalizeUrlStr url
    match (if force_extract then (none, cache) else get_cached_video_info cache url' now) with
    | (some [], cache1) => download_fresh url' quality fmt cache1 now engine
    | (some ci, cache1) =>
        (.resp (cached_download_response ci quality fmt), cache1, [], 0)
    | (none, cache1) => download_fresh url' quality fmt cache1 now engine

/-! ## `/playlist/download` (lines 677-722) -/

/-- One element of the `download_links` list: `{"video_info": v,
"download_info": d}` on success, `{"video_info": v, "error": str(e)}` when
the member's processing raised (lines 700-712). -/
inductive PlaylistEntry (V R : Type) where
  | success (video_info : V) (download_info : R) : PlaylistEntry V R
  | failure (video_info : V) (error : String) : PlaylistEntry V R

/-- The member identity an entry was recorded alongside. -/
def playlist_entry_member {V R : Type} : PlaylistEntry V R → V
  | .success v _ => v
  | .failure v _ => v

/-- The per-member fan-out of `get_playlist_download_links` (lines 696-718):
iterate `playlist_info["videos"][:limit]` in order; `run` abstracts the
awaited `get_video_download_links` call on the member's watch URL, with the
`except` clause capturing any exception of the iteration body as `str(e)`.
Returns `download_links` and `total_processed = len(download_links)`. -/
def playlist_download_fanout {V R : Type} (videos : List V) (limit : Nat)
    (run : V → Except String R) : List (PlaylistEntry V R) × Nat :=
  let download_links := (videos.take limit).map fun video =>
    match run video with
    | .ok d => PlaylistEntry.success video d
    | .error e => PlaylistEntry.failure video e
  (download_links, download_links.length)

/-- The body of a `resp` result (the fields of the returned JSON object);
errors and hangs have no body. -/
def hresult_fields : HResult → List (String × JVal)
  | .resp fs => fs
  | .err _ => []
  | .hang => []

/-- The fields of an object-shaped `JVal`. -/
def jval_obj_fields : JVal → List (String × JVal)
  | .obj fs => fs
  | _ => []

/-- The keys of the shaped `/video/info` response dict (lines 349-364). -/
def video_info_field_keys : List String :=
  ["cached", "id", "title", "description", "duration", "view_count", "like_count",
   "uploader", "upload_date", "thumbnail", "tags", "categories", "age_limit",
   "webpage_url"]

/-! ## Association-list lemmas -/

theorem fieldOf_cons (k2 : String) (v2 : JVal) (rest : List (String × JVal)) (k : String) :
    fieldOf ((k2, v2) :: rest) k = if k2 = k then some v2 else fieldOf rest k := rfl

theorem assocLookup_assocInsert_self {α : Type} (m : List (String × α)) (k : String) (v : α) :
    assocLookup (assocInsert m k v) k = some v := by
  induction m with
  | nil => simp [assocInsert, assocLookup]
  | cons p rest ih =>
      obtain ⟨k2, v2⟩ := p
      by_cases h : k2 = k
      · simp [assocInsert, h, assocLookup]
      · simp [assocInsert, h, assocLookup, ih]

theorem assocLookup_eq_none {α : Type} (m : List (String × α)) (k : String)
    (h : ∀ p ∈ m, p.1 ≠ k) : assocLookup m k = none := by
  induction m with
  | nil => rfl
  | cons p rest ih =>
      obtain ⟨k2, v2⟩ := p
      have hk2 : k2 ≠ k := h (k2, v2) (by simp)
      simp only [assocLookup, if_neg hk2]
      exact ih fun q hq => h q (by simp [hq])

theorem assocLookup_assocErase_self {α : Type} (m : List (String × α)) (k : String)
    (h : (m.map Prod.fst).Nodup) : assocLookup (assocErase m k) k = none := by
  induction m with
  | nil => rfl
  | cons p rest ih =>
      obtain ⟨k2, v2⟩ := p
      simp only [List.map_cons, List.nodup_cons] at h
      by_cases hk : k2 = k
      · subst hk
        simp only [assocErase, if_pos rfl]
        exact assocLookup_eq_none rest k2 fun q hq hq1 =>
          h.1 (hq1 ▸ List.mem_map_of_mem Prod.fst hq)
      · simp only [assocErase, if_neg hk, assocLookup, if_neg hk]
        exact ih h.2

theorem assocLookup_append_some {α : Type} (l m : List (String × α)) (k : String)
    (v : α) (h : assocLookup l k = some v) : assocLookup (l ++ m) k = some v := by
  induction l with
  | nil => simp [assocLookup] at h
  | cons p rest ih =>
      obtain ⟨k2, v2⟩ := p
      by_cases hk : k2 = k
      · simpa [assocLookup, hk] using h
      · simp only [assocLookup, if_neg hk] at h
        simpa [assocLookup, hk] using ih h

theorem assocLookup_append_none {α : Type} (l m : List (String × α)) (k : String)
    (h : assocLookup l k = none) : assocLookup (l ++ m) k = assocLookup m k := by
  induction l with
  | nil => rfl
  | cons p rest ih =>
      obtain ⟨k2, v2⟩ := p
      by_cases hk : k2 = k
      · simp [assocLookup, hk] at h
      · simp only [assocLookup, if_neg hk] at h
        simpa [assocLookup, hk] using ih h

theorem mem_assocInsert {α : Type} (m : List (String × α)) (k : String) (v : α)
    (p : String × α) (hp : p ∈ assocInsert m k v) : p = (k, v) ∨ p ∈ m := by
  induction m with
  | nil => simpa [assocInsert] using hp
  | cons q rest ih =>
      obtain ⟨k2, v2⟩ := q
      by_cases hk : k2 = k
      · simp only [assocInsert, if_pos hk] at hp
        rcases List.mem_cons.mp hp with hp1 | hp1
        · exact Or.inl hp1
        · exact Or.inr (by simp [hp1])
      · simp only [assocInsert, if_neg hk] at hp
        rcases List.mem_cons.mp hp with hp1 | hp1
        · exact Or.inr (by simp [hp1])
        · rcases ih hp1 with h | h
          · exact Or.inl h
          · exact Or.inr (by simp [h])

/-! ## C4: cache store/lookup semantics -/

/-- C4: `store(identity, result)` sets the entry's expiry to `now + 30`
minutes (overwriting any previous entry for the key); `lookup(identity)`
returns the stored result exactly when an entry is present and
`now < expiry`; a present-but-expired entry is treated as absent and
deleted from the map; an absent key is a plain miss. -/
theorem cache_store_lookup_semantics (cache : Cache) (url : String)
    (info : List (String × JVal)) (now : ℚ) (entry : CacheEntry)
    (hnodup : (cache.map Prod.fst).Nodup) :
    assocLookup (cache_video_info cache url info now) (get_cache_key url)
        = some ⟨info, now + 30 * 60⟩
    ∧ (assocLookup cache (get_cache_key url) = some entry → now < entry.expiry →
        get_cached_video_info cache url now = (some entry.info, cache))
    ∧ (assocLookup cache (get_cache_key url) = some entry → ¬ now < entry.expiry →
        get_cached_video_info cache url now = (none, assocErase cache (get_cache_key url))
        ∧ assocLookup (assocErase cache (get_cache_key url)) (get_cache_key url) = none)
    ∧ (assocLookup cache (get_cache_key url) = none →
        get_cached_video_info cache url now = (none, cache)) := by
  refine ⟨assocLookup_assocInsert_self cache (get_cache_key url) _, ?_, ?_, ?_⟩
  · intro hfound hfresh
    simp [get_cached_video_info, hfound, hfresh]
  · intro hfound hstale
    exact ⟨by simp [get_cached_video_info, hfound, hstale],
      assocLookup_assocErase_self cache (get_cache_key url) hnodup⟩
  · intro habsent
    simp [get_cached_video_info, habsent]

/-- Witness for C4 at a concrete cache: a store at time 0 yields expiry
1800, and a lookup of a stale entry at time 2000 misses and deletes it. -/
theorem cache_store_lookup_semantics_witness :
    assocLookup (cache_video_info [("u__", CacheEntry.mk [("title", .str "T")] 10)] "u"
        [("id", .str "x")] 0) (get_cache_key "u")
        = some (CacheEntry.mk [("id", .str "x")] (0 + 30 * 60))
    ∧ (get_cached_video_info [("u__", CacheEntry.mk [("title", .str "T")] 10)] "u" 2000
        = (none, assocErase [("u__", CacheEntry.mk [("title", .str "T")] 10)] (get_cache_key "u"))
      ∧ assocLookup (assocErase [("u__", CacheEntry.mk [("title", .str "T")] 10)]
          (get_cache_key "u")) (get_cache_key "u") = none) :=
  ⟨(cache_store_lookup_semantics [("u__", CacheEntry.mk [("title", .str "T")] 10)] "u"
      [("id", .str "x")] 0 (CacheEntry.mk [("title", .str "T")] 10) (by decide)).1,
   (cache_store_lookup_semantics [("u__", CacheEntry.mk [("title", .str "T")] 10)] "u"
      [("id", .str "x")] 2000 (CacheEntry.mk [("title", .str "T")] 10) (by decide)).2.2.1
      rfl (by norm_num)⟩

/-! ## C5: rate limiter admission -/

/-- C5: for a caller with a recorded last-accepted time, admission is denied
exactly when the elapsed time is strictly below the minimum interval
`60 / calls_per_minute`; a denial is a 429 carrying
`retryAfter = minInterval - elapsed` in exact fractional seconds and leaves
the record unchanged; an allowed call records the current time; the info
endpoint runs at 30 calls/minute (a 2-second interval) and the download
endpoint at 20 calls/minute (a 3-second interval). -/
theorem rate_limiter_admission (cpm : ℚ) (state : List (String × ℚ))
    (ip : String) (now last : ℚ)
    (hlast : assocLookup state ip = some last) :
    (now - last < 60 / cpm →
      rate_limit_gate cpm state ip now = (.error (429, 60 / cpm - (now - last)), state))
    ∧ (¬ now - last < 60 / cpm →
      rate_limit_gate cpm state ip now = (.ok (), assocInsert state ip now))
    ∧ 60 / video_info_calls_per_minute = 2
    ∧ 60 / video_download_calls_per_minute = 3 := by
  refine ⟨?_, ?_, by norm_num [video_info_calls_per_minute],
    by norm_num [video_download_calls_per_minute]⟩
  · intro hdeny
    simp [rate_limit_gate, rate_limit_check, hlast, hdeny]
  · intro hallow
    simp [rate_limit_gate, rate_limit_check, hlast, hallow]

/-- Witness for C5: with a 2-second interval, a second call 0.5 seconds
after the recorded one is denied with retryAfter 1.5 and the record kept;
a call 2 seconds after is allowed and re-records. -/
theorem rate_limiter_admission_witness :
    rate_limit_gate 30 [("unknown", 0)] "unknown" (1 / 2)
      = (.error (429, 60 / 30 - (1 / 2 - 0)), [("unknown", 0)])
    ∧ rate_limit_gate 30 [("unknown", 0)] "unknown" 2
      = (.ok (), assocInsert [("unknown", 0)] "unknown" 2) :=
  ⟨(rate_limiter_admission 30 [("unknown", 0)] "unknown" (1 / 2) 0 (by decide)).1
      (by norm_num),
   (rate_limiter_admission 30 [("unknown", 0)] "unknown" 2 0 (by decide)).2.1
      (by norm_num)⟩

/-! ## C1: private-video handling in the download orchestrator

The claim states a non-retriable short-circuit: one upstream call, then
`PrivateVideo`.  The loop in `get_download_info_enhanced` classifies a
`DownloadError` only once `attempts >= max_attempts`; before that every
`DownloadError`, the private-video one included, sleeps and retries with the
next client profile. -/

/-- A realistic private-video `DownloadError` message. -/
def private_video_msg : String :=
  "ERROR: [youtube] dQw4w9WgXcQ: Private video. Sign in if you have been granted access to this video"

/-- Counterexample to C1: with every upstream call reporting a private
video, the orchestrator makes 3 upstream calls (rotating android, ios, web),
not 1, before failing with the 403 private-video error. -/
theorem private_video_not_single_call_cex :
    (get_download_info_enhanced "u" [] 0
        [.dlError private_video_msg, .dlError private_video_msg,
         .dlError private_video_msg]).2.2.1 = ["android", "ios", "web"]
    ∧ (get_download_info_enhanced "u" [] 0
        [.dlError private_video_msg, .dlError private_video_msg,
         .dlError private_video_msg]).1
        = .err ⟨403, .str "This video is private and cannot be accessed."⟩
    ∧ (3 : Nat) ≠ 1 := by
  exact ⟨rfl, rfl, by decide⟩

/-- C1 (amended): when every attempt's upstream call reports a private
video, the orchestrator performs exactly `max_attempts = 3` upstream calls,
rotating client profiles and sleeping ~1 second between attempts, and then
fails with the 403 private-video error (the third message is the one
classified); the cache is left untouched. -/
theorem private_video_three_calls (url2 : String) (cache : Cache) (now : ℚ)
    (m1 m2 m3 : String) (rest : List EngineOutcome)
    (h1 : strContains m1 "Private video" = true)
    (h2 : strContains m2 "Private video" = true)
    (h3 : strContains m3 "Private video" = true)
    (hb1 : strContains m1 bot_check_phrase = false)
    (hb2 : strContains m2 bot_check_phrase = false)
    (hb3 : strContains m3 bot_check_phrase = false) :
    get_download_info_enhanced url2 cache now
        (.dlError m1 :: .dlError m2 :: .dlError m3 :: rest)
      = (.err ⟨403, .str "This video is private and cannot be accessed."⟩, cache,
         ["android", "ios", "web"], 2) := by
  simp [get_download_info_enhanced, download_attempt_loop, clients, max_attempts,
    classify_download_error, h3, hb3]

/-- Witness for C1 (amended) at the concrete private-video message. -/
theorem private_video_three_calls_witness :
    get_download_info_enhanced "u" [] 0
        (.dlError private_video_msg :: .dlError private_video_msg ::
          .dlError private_video_msg :: [])
      = (.err ⟨403, .str "This video is private and cannot be accessed."⟩, [],
         ["android", "ios", "web"], 2) :=
  private_video_three_calls "u" [] 0 private_video_msg private_video_msg
    private_video_msg [] rfl rfl rfl rfl rfl rfl

/-! ## C2: sign-in exhaustion bound in the download orchestrator -/

/-- A realistic bot-verification `DownloadError` message. -/
def sign_in_msg : String :=
  "ERROR: [youtube] dQw4w9WgXcQ: Sign in to confirm you\x27re not a bot. This helps protect our community."

/-- C2: when every attempt's upstream call reports the sign-in/bot wall, the
orchestrator performs exactly `max_attempts = 3` upstream calls, never more,
the profile of attempt `i` being `clients[i % len(clients)]` from the fixed
sequence [android, ios, web, mweb], with a one-second sleep between
consecutive attempts (2 sleeps across 3 attempts), and fails with the 403
structured detail whose `fallback` field points at `/video/fallback`. -/
theorem sign_in_rotation_bound (url2 : String) (cache : Cache) (now : ℚ)
    (m1 m2 m3 : String) (rest : List EngineOutcome)
    (h1 : strContains m1 bot_check_phrase = true)
    (h2 : strContains m2 bot_check_phrase = true)
    (h3 : strContains m3 bot_check_phrase = true) :
    get_download_info_enhanced url2 cache now
        (.dlError m1 :: .dlError m2 :: .dlError m3 :: rest)
      = (.err ⟨403, sign_in_download_detail⟩, cache, ["android", "ios", "web"], 2)
    ∧ ["android", "ios", "web"]
        = ((List.range max_attempts).map fun i => clients.getD (i % clients.length) "")
    ∧("android" :: "ios" :: "web" :: ([] : List String)).length = max_attempts
    ∧ assocLookup (jval_obj_fields sign_in_download_detail) "fallback"
        = some (.str "Try using /video/fallback endpoint") := by
  refine ⟨?_, by decide, by decide, rfl⟩
  simp [get_download_info_enhanced, download_attempt_loop, clients, max_attempts,
    classify_download_error, h3]

/-- Witness for C2 at the concrete bot-wall message. -/
theorem sign_in_rotation_bound_witness :
    get_download_info_enhanced "u" [] 0
        (.dlError sign_in_msg :: .dlError sign_in_msg :: .dlError sign_in_msg :: [])
      = (.err ⟨403, sign_in_download_detail⟩, [], ["android", "ios", "web"], 2)
    ∧ ["android", "ios", "web"]
        = ((List.range max_attempts).map fun i => clients.getD (i % clients.length) "")
    ∧("android" :: "ios" :: "web" :: ([] : List String)).length = max_attempts
    ∧ assocLookup (jval_obj_fields sign_in_download_detail) "fallback"
        = some (.str "Try using /video/fallback endpoint") :=
  sign_in_rotation_bound "u" [] 0 sign_in_msg sign_in_msg sign_in_msg [] rfl rfl rfl

/-! ## C8: enum validation on `/video/download`

Only `quality` is checked against `QUALITY_OPTIONS` (line 477-478); the
`format` parameter is never validated. -/

/-- A canonical watch URL used by the concrete scenarios. -/
def sample_url : String := "https://www.youtube.com/watch?v=dQw4w9WgXcQ"

/-- A raw extraction result carrying a download URL. -/
def sample_info : List (String × JVal) := [("url", .str "https://cdn.example/x")]

/-- Counterexample to C8: a request with the out-of-enum format `"flac"`
(and a valid quality) is NOT rejected: the orchestrator makes an upstream
call and returns a success response, rather than failing 400 before any
upstream call. -/
theorem format_not_validated_cex :
    (get_video_download_links sample_url "high" "flac" true [] 0
        [.success sample_info]).1
      = .resp (download_info_response sample_info "high" "flac")
    ∧ (get_video_download_links sample_url "high" "flac" true [] 0
        [.success sample_info]).2.2.1 = ["android"]
    ∧ (get_video_download_links sample_url "high" "flac" true [] 0
        [.success sample_info]).1
      ≠ .err ⟨400, .str "Invalid quality option"⟩ := by
  refine ⟨rfl, rfl, ?_⟩
  intro h
  rw [show (get_video_download_links sample_url "high" "flac" true [] 0
      [.success sample_info]).1
    = .resp (download_info_response sample_info "high" "flac") from rfl] at h
  exact HResult.noConfusion h

/-- C8 (amended): a `quality` outside the declared enum is rejected with
HTTP 400 before any upstream extraction call (an empty client-profile log),
for every url, format, force flag, cache, time, and engine behavior;
`format` is not validated at all (the counterexample shows an out-of-enum
format proceeding to extraction). -/
theorem invalid_quality_rejected (url2 q fmt : String) (force : Bool)
    (cache : Cache) (now : ℚ) (engine : List EngineOutcome)
    (hq : assocLookup QUALITY_OPTIONS q = none) :
    get_video_download_links url2 q fmt force cache now engine
      = (.err ⟨400, .str "Invalid quality option"⟩, cache, [], 0) := by
  simp [get_video_download_links, hq]

/-- Witness for C8 (amended): `quality="ultra"` is rejected 400 with zero
upstream calls. -/
theorem invalid_quality_rejected_witness :
    get_video_download_links sample_url "ultra" "mp4" false [] 0 [.success sample_info]
      = (.err ⟨400, .str "Invalid quality option"⟩, [], [], 0) :=
  invalid_quality_rejected sample_url "ultra" "mp4" false [] 0 [.success sample_info] rfl

/-! ## C6: missing download URL

The fresh path fails 503 when `download_info["download_url"]` is falsy
(lines 604-613), but the cached path (lines 484-495) returns
`cached_info.get("url")` with no such check. -/

/-- A cached raw info dict with no `url` field. -/
def c6_cached_info : List (String × JVal) := [("title", .str "Cached Title")]

/-- A cache holding that entry for the sample URL, unexpired at time 5. -/
def c6_cache : Cache := [(get_cache_key sample_url, ⟨c6_cached_info, 1000⟩)]

/-- Counterexample to C6: on the cached response path a cached entry with no
`url` field yields a success response whose `download_url` field is null —
not the 503 `NoDownloadUrl` failure — with zero upstream calls. -/
theorem cached_path_null_download_url_cex :
    (get_video_download_links sample_url "high" "mp4" false c6_cache 5 []).1
      = .resp (cached_download_response c6_cached_info "high" "mp4")
    ∧ fieldOf (cached_download_response c6_cached_info "high" "mp4") "download_url"
      = some JVal.null
    ∧ (get_video_download_links sample_url "high" "mp4" false c6_cache 5 []).1
      ≠ .err ⟨503, no_download_url_detail⟩
    ∧ (get_video_download_links sample_url "high" "mp4" false c6_cache 5 []).2.2.1
      = [] := by
  refine ⟨rfl, rfl, ?_, rfl⟩
  intro h
  rw [show (get_video_download_links sample_url "high" "mp4" false c6_cache 5 []).1
    = .resp (cached_download_response c6_cached_info "high" "mp4") from rfl] at h
  exact HResult.noConfusion h

/-- C6 (amended): on the fresh-extraction path, a successful extraction
whose structured data lacks a truthy `url` fails with the 503
`NoDownloadUrl` detail (distinct from extraction failure), and a truthy
`url` is returned verbatim as `download_url`; the cached path performs no
such check (see the counterexample). -/
theorem fresh_path_no_download_url (url2 q fmt : String) (cache : Cache)
    (now : ℚ) (info : List (String × JVal)) (rest : List EngineOutcome) :
    (py_truthy (dictGet info "url" .null) = false →
      (download_fresh url2 q fmt cache now (.success info :: rest)).1
        = .err ⟨503, no_download_url_detail⟩)
    ∧ (py_truthy (dictGet info "url" .null) = true →
      (download_fresh url2 q fmt cache now (.success info :: rest)).1
        = .resp (download_info_response info q fmt)
      ∧ fieldOf (download_info_response info q fmt) "download_url"
        = some (dictGet info "url" .null)) := by
  constructor
  · intro hfalsy
    simp [download_fresh, get_download_info_enhanced, download_attempt_loop,
      max_attempts, hfalsy]
  · intro htruthy
    refine ⟨?_, ?_⟩
    · simp [download_fresh, get_download_info_enhanced, download_attempt_loop,
        max_attempts, htruthy]
    · simp [fieldOf, download_info_response, assocLookup, dictGet]

/-- Witness for C6 (amended): an extraction result with no `url` field
fails 503 and one with a URL succeeds, carrying it as `download_url`. -/
theorem fresh_path_no_download_url_witness :
    (download_fresh "u" "high" "mp4" [] 0 (.success c6_cached_info :: [])).1
      = .err ⟨503, no_download_url_detail⟩
    ∧ (download_fresh "u" "high" "mp4" [] 0 (.success sample_info :: [])).1
      = .resp (download_info_response sample_info "high" "mp4") :=
  ⟨(fresh_path_no_download_url "u" "high" "mp4" [] 0 c6_cached_info []).1 rfl,
   ((fresh_path_no_download_url "u" "high" "mp4" [] 0 sample_info []).2 rfl).1⟩

/-! ## C9: playlist member isolation -/

/-- C9: for a batch of `n = len(videos[:limit])` resolved members,
`total_processed = n`; each position of `download_links` is the entry of the
member at the same position of the (order-preserving) truncated member list,
a failing member is recorded as an error entry alongside its identity, a
succeeding member as a result entry, and no member's outcome disturbs any
other position. -/
theorem playlist_isolation {V R : Type} (videos : List V) (limit : Nat)
    (run : V → Except String R) :
    (playlist_download_fanout videos limit run).2 = min limit videos.length
    ∧ (∀ i v e, (videos.take limit).get? i = some v → run v = .error e →
        (playlist_download_fanout videos limit run).1.get? i
          = some (.failure v e))
    ∧ (∀ i v d, (videos.take limit).get? i = some v → run v = .ok d →
        (playlist_download_fanout videos limit run).1.get? i
          = some (.success v d))
    ∧ (∀ i v, (videos.take limit).get? i = some v →
        ((playlist_download_fanout videos limit run).1.get? i).map
            playlist_entry_member = some v) := by
  refine ⟨by simp [playlist_download_fanout], ?_, ?_, ?_⟩
  · intro i v e hv hrun
    simp only [playlist_download_fanout, List.get?_eq_getElem?] at hv ⊢
    rw [List.getElem?_map, hv]
    simp [hrun]
  · intro i v d hv hrun
    simp only [playlist_download_fanout, List.get?_eq_getElem?] at hv ⊢
    rw [List.getElem?_map, hv]
    simp [hrun]
  · intro i v hv
    simp only [playlist_download_fanout, List.get?_eq_getElem?] at hv ⊢
    rw [List.getElem?_map, hv]
    rcases hre : run v with e | d
    · simp [hre, playlist_entry_member]
    · simp [hre, playlist_entry_member]

/-- The members of a concrete 5-item playlist. -/
def c9_members : List String := ["v1", "v2", "v3", "v4", "v5"]

/-- A per-member runner under which exactly item 3 fails. -/
def c9_run : String → Except String String :=
  fun v => if v = "v3" then .error "400: Error extracting video" else .ok ("https://cdn.example/" ++ v)

/-- Witness for C9: the 5-item playlist with item 3 failing yields
`total_processed = 5`, the error recorded at position 3 alongside `v3`, and
the neighbouring member processed normally. -/
theorem playlist_isolation_witness :
    (playlist_download_fanout c9_members 10 c9_run).2 = 5
    ∧ (playlist_download_fanout c9_members 10 c9_run).1.get? 2
        = some (.failure "v3" "400: Error extracting video")
    ∧ (playlist_download_fanout c9_members 10 c9_run).1.get? 3
        = some (.success "v4" "https://cdn.example/v4") :=
  ⟨(playlist_isolation c9_members 10 c9_run).1,
   (playlist_isolation c9_members 10 c9_run).2.1 2 "v3" "400: Error extracting video"
     rfl rfl,
   (playlist_isolation c9_members 10 c9_run).2.2.1 3 "v4" "https://cdn.example/v4"
     rfl rfl⟩

/-! ## C10: the rate-limiter key is globally `'unknown'` -/

/-- A sequence of rate-gated calls at the given times, all resolving to the
same caller key, folded over the shared `last_request_time` map. -/
def run_rate_limited_calls (cpm : ℚ) (key : String) (callTimes : List ℚ)
    (state : List (String × ℚ)) : List (String × ℚ) :=
  callTimes.foldl (fun st t => (rate_limit_check cpm st key t).2) state

theorem rate_limit_check_state_step (cpm : ℚ) (key : String) (t : ℚ)
    (state : List (String × ℚ))
    (hkeys : ∀ p ∈ state, p.1 = key) (hlen : state.length ≤ 1) :
    (∀ p ∈ (rate_limit_check cpm state key t).2, p.1 = key)
    ∧ ((rate_limit_check cpm state key t).2).length ≤ 1 := by
  rcases state with _ | ⟨p, _ | ⟨q, rest⟩⟩
  · simp [rate_limit_check, assocLookup, assocInsert]
  · obtain ⟨k1, v1⟩ := p
    have hk1 : k1 = key := hkeys (k1, v1) (by simp)
    subst hk1
    simp only [rate_limit_check, assocLookup, if_pos rfl]
    by_cases hd : t - v1 < 60 / cpm
    · simp [hd, hkeys]
    · simp [hd, assocInsert]
  · simp at hlen

theorem run_rate_limited_calls_state (cpm : ℚ) (key : String)
    (callTimes : List ℚ) (state : List (String × ℚ))
    (hkeys : ∀ p ∈ state, p.1 = key) (hlen : state.length ≤ 1) :
    (∀ p ∈ run_rate_limited_calls cpm key callTimes state, p.1 = key)
    ∧ (run_rate_limited_calls cpm key callTimes state).length ≤ 1 := by
  induction callTimes generalizing state with
  | nil => exact ⟨hkeys, hlen⟩
  | cons t ts ih =>
      have hstep := rate_limit_check_state_step cpm key t state hkeys hlen
      exact ih (rate_limit_check cpm state key t).2 hstep.1 hstep.2

/-- C10: the two rate-limited endpoints declare no `client_ip` keyword, so
whenever the wrapper's `kwargs` carry only the endpoints' declared parameter
names the caller key resolves to the constant `"unknown"`; consequently the
shared `last_request_time` map, fed only through that key from its empty
initial state, only ever holds entries keyed `"unknown"` and never more than
one entry. -/
theorem rate_limiter_key_globally_unknown
    (kwargs : List (String × String))
    (hnames : ∀ p ∈ kwargs,
      p.1 ∈ video_info_kwarg_names ∨ p.1 ∈ video_download_kwarg_names) :
    rate_limit_client_key kwargs = "unknown"
    ∧ ∀ (cpm : ℚ) (callTimes : List ℚ),
        (∀ p ∈ run_rate_limited_calls cpm "unknown" callTimes [], p.1 = "unknown")
        ∧ (run_rate_limited_calls cpm "unknown" callTimes []).length ≤ 1 := by
  constructor
  · have hnone : assocLookup kwargs "client_ip" = none := by
      refine assocLookup_eq_none kwargs "client_ip" ?_
      intro p hp hcip
      rcases hnames p hp with h | h
      · rw [hcip] at h
        simp [video_info_kwarg_names] at h
      · rw [hcip] at h
        simp [video_download_kwarg_names] at h
    simp [rate_limit_client_key, hnone]
  · intro cpm callTimes
    exact run_rate_limited_calls_state cpm "unknown" callTimes []
      (by intro p hp; simp at hp) (by simp)

/-- Witness for C10: concrete `/video/info`-shaped kwargs resolve to the
`"unknown"` key, and a burst of three calls leaves at most one entry, keyed
`"unknown"`. -/
theorem rate_limiter_key_globally_unknown_witness :
    rate_limit_client_key [("url", "u"), ("force_extract", "false"), ("request", "r")]
      = "unknown"
    ∧ ((∀ p ∈ run_rate_limited_calls 30 "unknown" [0, 1 / 2, 10] [], p.1 = "unknown")
      ∧ (run_rate_limited_calls 30 "unknown" [0, 1 / 2, 10] []).length ≤ 1) :=
  ⟨(rate_limiter_key_globally_unknown
      [("url", "u"), ("force_extract", "false"), ("request", "r")]
      (by intro p hp; fin_cases hp <;> simp [video_info_kwarg_names])).1,
   (rate_limiter_key_globally_unknown [] (by intro p hp; simp at hp)).2 30 [0, 1 / 2, 10]⟩

/-! ## C3: idempotent cache hit on `/video/info`

The first call returns the shaped `video_info` dict (lines 349-364) while
the cache stores the RAW extractor result (line 346) and the hit path
spreads that raw dict (lines 335-338), so the two responses' field sets are
not byte-identical in general: a raw result missing a shaped key yields a
defaulted field on the first call and no field at all on the second. -/

/-- A raw extraction result carrying an id but no title. -/
def c3_info : List (String × JVal) := [("id", .str "dQw4w9WgXcQ")]

/-- The first `/video/info` call: empty cache at time 0, successful
extraction of `c3_info`. -/
def c3_first : HResult × Cache × Nat :=
  get_video_info sample_url false false [] 0 [.success c3_info]

/-- The second `/video/info` call: 60 seconds later, same URL, no
`force_extract`, no engine outcomes needed. -/
def c3_second : HResult × Cache × Nat :=
  get_video_info sample_url false false c3_first.2.1 60 []

/-- Counterexample to C3: the first response carries
`title = "Unknown Title"` (a defaulted field) while the cache-hit response
carries no `title` field at all — the metadata fields are not
byte-identical — even though the hit is tagged `cached: true` and performs
zero upstream calls. -/
theorem video_info_cache_hit_not_identical_cex :
    fieldOf (hresult_fields c3_first.1) "title" = some (.str "Unknown Title")
    ∧ fieldOf (hresult_fields c3_second.1) "title" = none
    ∧ fieldOf (hresult_fields c3_first.1) "title"
      ≠ fieldOf (hresult_fields c3_second.1) "title"
    ∧ fieldOf (hresult_fields c3_second.1) "cached" = some (.bool true)
    ∧ c3_second.2.2 = 0 := by
  have hlt : (60 : ℚ) < 0 + 30 * 60 := by norm_num
  have h1 : c3_first.2.1
      = [(get_cache_key (normalizeUrlStr sample_url), ⟨c3_info, 0 + 30 * 60⟩)] := by
    simp [c3_first, get_video_info, get_cached_video_info, assocLookup,
      video_info_fresh, extract_video_info, cache_video_info, assocInsert]
  have h2a : c3_second.1 = .resp (cached_info_response c3_info) := by
    simp [c3_second, h1, get_video_info, get_cached_video_info, assocLookup, hlt, c3_info]
  have h2b : c3_second.2.2 = 0 := by
    simp [c3_second, h1, get_video_info, get_cached_video_info, assocLookup, hlt, c3_info]
  refine ⟨rfl, ?_, ?_, ?_, h2b⟩
  · rw [h2a]
    rfl
  · rw [h2a]
    intro h
    rw [show fieldOf (hresult_fields c3_first.1) "title" = some (.str "Unknown Title")
        from rfl,
      show fieldOf (hresult_fields (.resp (cached_info_response c3_info))) "title" = none
        from rfl] at h
    exact Option.noConfusion h
  · rw [h2a]
    rfl

/-- C3 (amended): a second `/video/info` call within the TTL window and
without `force_extract` performs zero upstream extraction calls and returns
the raw cached extraction result spread into the response, tagged
`cached: true`; every shaped metadata field whose key is present in the raw
result is byte-identical between the two responses, while keys absent from
the raw result are defaulted in the first response but absent from the
second. -/
theorem video_info_cache_hit_amended (url2 : String)
    (info : List (String × JVal)) (t0 t1 : ℚ)
    (hfresh : t1 < t0 + 30 * 60)
    (hne : info ≠ [])
    (hcached : assocLookup info "cached" = none) :
    (get_video_info url2 false false
        (get_video_info url2 false false [] t0 [.success info]).2.1 t1 []).2.2 = 0
    ∧ (get_video_info url2 false false
        (get_video_info url2 false false [] t0 [.success info]).2.1 t1 []).1
      = .resp (cached_info_response info)
    ∧ fieldOf (cached_info_response info) "cached" = some (.bool true)
    ∧ (get_video_info url2 false false [] t0 [.success info]).1
      = .resp (video_info_fields info (normalizeUrlStr url2))
    ∧ (∀ k v, k ∈ video_info_field_keys → k ≠ "cached" →
        assocLookup info k = some v →
        fieldOf (video_info_fields info (normalizeUrlStr url2)) k = some v
        ∧ fieldOf (cached_info_response info) k = some v) := by
  cases info with
  | nil => exact absurd rfl hne
  | cons p0 irest =>
  have hfirst : get_video_info url2 false false [] t0 [.success (p0 :: irest)]
      = (.resp (video_info_fields (p0 :: irest) (normalizeUrlStr url2)),
         [(get_cache_key (normalizeUrlStr url2), ⟨p0 :: irest, t0 + 30 * 60⟩)], 1) := by
    simp [get_video_info, get_cached_video_info, assocLookup, video_info_fresh,
      extract_video_info, cache_video_info, assocInsert]
  have hsecond : get_video_info url2 false false
      [(get_cache_key (normalizeUrlStr url2), ⟨p0 :: irest, t0 + 30 * 60⟩)] t1 []
      = (.resp (cached_info_response (p0 :: irest)),
         [(get_cache_key (normalizeUrlStr url2), ⟨p0 :: irest, t0 + 30 * 60⟩)], 0) := by
    simp [get_video_info, get_cached_video_info, assocLookup, hfresh]
  refine ⟨?_, ?_, ?_, ?_, ?_⟩
  · rw [hfirst]
    rw [hsecond]
  · rw [hfirst]
    rw [hsecond]
  · rw [fieldOf, cached_info_response,
      assocLookup_append_none (p0 :: irest) _ "cached" hcached]
    rfl
  · rw [hfirst]
  · intro k v hk hkc hkv
    refine ⟨?_, assocLookup_append_some (p0 :: irest) _ k v hkv⟩
    simp only [video_info_field_keys, List.mem_cons, List.not_mem_nil, or_false] at hk
    rcases hk with rfl | rfl | rfl | rfl | rfl | rfl | rfl | rfl | rfl | rfl | rfl | rfl | rfl | rfl
    · exact absurd rfl hkc
    all_goals simp [video_info_fields, fieldOf_cons, dictGet, hkv]

/-- Witness for C3 (amended) at a concrete raw result carrying an `id`. -/
theorem video_info_cache_hit_amended_witness :
    (get_video_info sample_url false false
        (get_video_info sample_url false false [] 0 [.success c3_info]).2.1 60 []).2.2 = 0
    ∧ fieldOf (cached_info_response c3_info) "cached" = some (.bool true)
    ∧ fieldOf (video_info_fields c3_info (normalizeUrlStr sample_url)) "id"
      = some (.str "dQw4w9WgXcQ")
    ∧ fieldOf (cached_info_response c3_info) "id" = some (.str "dQw4w9WgXcQ") :=
  ⟨(video_info_cache_hit_amended sample_url c3_info 0 60 (by norm_num) (by simp [c3_info])
      rfl).1,
   (video_info_cache_hit_amended sample_url c3_info 0 60 (by norm_num) (by simp [c3_info])
      rfl).2.2.1,
   ((video_info_cache_hit_amended sample_url c3_info 0 60 (by norm_num) (by simp [c3_info])
      rfl).2.2.2.2 "id" (.str "dQw4w9WgXcQ") (by simp [video_info_field_keys])
      (by decide) rfl).1,
   ((video_info_cache_hit_amended sample_url c3_info 0 60 (by norm_num) (by simp [c3_info])
      rfl).2.2.2.2 "id" (.str "dQw4w9WgXcQ") (by simp [video_info_field_keys])
      (by decide) rfl).2⟩

/-! ## C7: URL normalization

`normalize_youtube_url` rewrites only `youtu.be` short links; a watch link
is returned unchanged (it already matches the canonical form), but an embed
link contains no `v=` and is also returned unchanged, so it does NOT share
the canonical identity. -/

theorem isPrefixB_mem (sub : List Char) (l : List Char)
    (h : isPrefixB sub l = true) : ∀ c ∈ sub, c ∈ l := by
  induction sub generalizing l with
  | nil =>
      intro c hc
      simp at hc
  | cons a as ih =>
      cases l with
      | nil => simp [isPrefixB] at h
      | cons b bs =>
          simp only [isPrefixB, Bool.and_eq_true, beq_iff_eq] at h
          intro c hc
          rcases List.mem_cons.mp hc with rfl | hc2
          · simp [h.1]
          · exact List.mem_cons_of_mem b (ih bs h.2 c hc2)

theorem containsSub_mem (sub : List Char) (l : List Char)
    (h : containsSub sub l = true) : ∀ c ∈ sub, c ∈ l := by
  induction l with
  | nil =>
      simp only [containsSub] at h
      intro c hc
      cases sub with
      | nil => simp at hc
      | cons a as => simp [isPrefixB] at h
  | cons b bs ih =>
      simp only [containsSub, Bool.or_eq_true] at h
      rcases h with h | h
      · exact isPrefixB_mem sub (b :: bs) h
      · intro c hc
        exact List.mem_cons_of_mem b (ih h c hc)

theorem containsSub_eq_false (sub : List Char) (l : List Char) (c : Char)
    (hc : c ∈ sub) (hl : c ∉ l) : containsSub sub l = false := by
  cases hb : containsSub sub l with
  | false => rfl
  | true => exact absurd (containsSub_mem sub l hb c hc) hl

theorem pySplit_ne_nil (sep : Char) (l : List Char) : pySplit sep l ≠ [] := by
  cases l with
  | nil => simp [pySplit]
  | cons c rest =>
      simp only [pySplit]
      cases h : pySplit sep rest with
      | nil => simp
      | cons g gs =>
          by_cases hc : c == sep
          · simp [hc]
          · simp [hc]

theorem pySplit_no_sep (sep : Char) (l : List Char) (h : sep ∉ l) :
    pySplit sep l = [l] := by
  induction l with
  | nil => rfl
  | cons c rest ih =>
      have hne : ¬ c == sep := by
        simp only [beq_iff_eq]
        intro e
        exact h (by rw [e]; exact List.mem_cons_self sep rest)
      have hrest : sep ∉ rest := fun hm => h (List.mem_cons_of_mem c hm)
      simp [pySplit, ih hrest, hne]

theorem getLastD_ne_nil {α : Type} (l : List α) (d1 d2 : α) (h : l ≠ []) :
    l.getLastD d1 = l.getLastD d2 := by
  cases l with
  | nil => exact absurd rfl h
  | cons a as => rw [List.getLastD_cons, List.getLastD_cons]

theorem pySplit_cons_eq (sep c : Char) (l : List Char) (g : List Char)
    (gs : List (List Char)) (h : pySplit sep l = g :: gs) :
    pySplit sep (c :: l) = if c == sep then [] :: g :: gs else (c :: g) :: gs := by
  simp only [pySplit, h]

theorem two_le_pySplit_length (sep : Char) (l : List Char) (h : sep ∈ l) :
    2 ≤ (pySplit sep l).length := by
  induction l with
  | nil => simp at h
  | cons c rest ih =>
      simp only [pySplit]
      cases hps : pySplit sep rest with
      | nil => exact absurd hps (pySplit_ne_nil sep rest)
      | cons g gs =>
          by_cases hc : c == sep
          · simp [hc]
          · have hrest : sep ∈ rest := by
              rcases List.mem_cons.mp h with e | hr
              · exact absurd (by simp [e]) hc
              · exact hr
            have h2 := ih hrest
            rw [hps] at h2
            simp only [List.length_cons] at h2
            simp only [if_neg hc, List.length_cons]
            omega

theorem pySplit_getLastD_append (sep : Char) (p id : List Char)
    (hid : sep ∉ id) :
    (pySplit sep (p ++ sep :: id)).getLastD [] = id := by
  induction p with
  | nil =>
      simp only [List.nil_append, pySplit, pySplit_no_sep sep id hid, beq_self_eq_true,
        if_pos]
      simp [List.getLastD_cons]
  | cons c p2 ih =>
      rw [List.cons_append]
      cases hps : pySplit sep (p2 ++ sep :: id) with
      | nil => exact absurd hps (pySplit_ne_nil _ _)
      | cons g gs =>
          have hlen : 2 ≤ (g :: gs).length := by
            rw [← hps]
            exact two_le_pySplit_length sep _ (by simp)
          have hgs : gs ≠ [] := by
            intro e
            rw [e] at hlen
            simp at hlen
          rw [hps] at ih
          rw [pySplit_cons_eq sep c _ g gs hps]
          by_cases hc : c == sep
          · rw [if_pos hc]
            rw [List.getLastD_cons]
            exact ih
          · rw [if_neg hc]
            rw [List.getLastD_cons] at ih ⊢
            rw [getLastD_ne_nil gs (c :: g) g hgs]
            exact ih

/-- Counterexample to C7: an embed link and a youtu.be short link with the
same 11-character id do NOT normalize to the same canonical URL — the short
link is rewritten to the watch form while the embed link is returned
unchanged. -/
theorem url_normalization_not_canonical_cex :
    normalize_youtube_url "https://www.youtube.com/embed/dQw4w9WgXcQ".data
      = "https://www.youtube.com/embed/dQw4w9WgXcQ".data
    ∧ normalize_youtube_url "https://youtu.be/dQw4w9WgXcQ".data
      = "https://www.youtube.com/watch?v=dQw4w9WgXcQ".data
    ∧ normalize_youtube_url "https://www.youtube.com/embed/dQw4w9WgXcQ".data
      ≠ normalize_youtube_url "https://youtu.be/dQw4w9WgXcQ".data := by
  exact ⟨by decide, by decide, by decide⟩

/-- C7 (amended): for any video id free of the URL metacharacters
`.`, `/`, `?`, `=` (true of all 11-character YouTube ids), a `youtu.be`
short link and a `watch?v=` link normalize to the same canonical watch URL,
so those two spellings share one cache key; but an `embed/` link is
returned unchanged and so does NOT share that canonical identity. -/
theorem url_normalization_watch_forms (id : List Char)
    (hdot : '.' ∉ id) (hslash : '/' ∉ id) (hq : '?' ∉ id) (heqc : '=' ∉ id) :
    normalize_youtube_url ("https://youtu.be/".data ++ id)
      = "https://www.youtube.com/watch?v=".data ++ id
    ∧ normalize_youtube_url ("https://www.youtube.com/watch?v=".data ++ id)
      = "https://www.youtube.com/watch?v=".data ++ id
    ∧ normalize_youtube_url ("https://www.youtube.com/embed/".data ++ id)
      = "https://www.youtube.com/embed/".data ++ id
    ∧ normalize_youtube_url ("https://www.youtube.com/embed/".data ++ id)
      ≠ normalize_youtube_url ("https://www.youtube.com/watch?v=".data ++ id) := by
  have hshort : containsSub "youtu.be".data ("https://youtu.be/".data ++ id) = true := rfl
  have hwatch_nb : containsSub "youtu.be".data
      ("https://www.youtube.com/watch?v=".data ++ id) = false :=
    containsSub_eq_false "youtu.be".data id '.' (by decide) hdot
  have hembed_nb : containsSub "youtu.be".data
      ("https://www.youtube.com/embed/".data ++ id) = false :=
    containsSub_eq_false "youtu.be".data id '.' (by decide) hdot
  have hwatch_yc : containsSub "youtube.com".data
      ("https://www.youtube.com/watch?v=".data ++ id) = true := rfl
  have hwatch_v : containsSub "v=".data
      ("https://www.youtube.com/watch?v=".data ++ id) = true := rfl
  have hembed_yc : containsSub "youtube.com".data
      ("https://www.youtube.com/embed/".data ++ id) = true := rfl
  have hembed_v : containsSub "v=".data
      ("https://www.youtube.com/embed/".data ++ id) = false :=
    containsSub_eq_false "v=".data id '=' (by decide) heqc
  have hlast : (pySplit '/' ("https://youtu.be/".data ++ id)).getLastD [] = id := by
    have := pySplit_getLastD_append '/' "https://youtu.be".data id hslash
    exact this
  have hsplit2 : pySplit '?' id = [id] := pySplit_no_sep '?' id hq
  have hnorm1 : normalize_youtube_url ("https://youtu.be/".data ++ id)
      = "https://www.youtube.com/watch?v=".data ++ id := by
    unfold normalize_youtube_url
    rw [if_pos hshort]
    simp only [hlast, hsplit2, List.headD_cons]
  have hnorm2 : normalize_youtube_url ("https://www.youtube.com/watch?v=".data ++ id)
      = "https://www.youtube.com/watch?v=".data ++ id := by
    have hw1 : ¬ containsSub "youtu.be".data
        ("https://www.youtube.com/watch?v=".data ++ id) = true := by
      rw [hwatch_nb]
      exact Bool.false_ne_true
    have hw2 : (containsSub "youtube.com".data
          ("https://www.youtube.com/watch?v=".data ++ id)
        && containsSub "v=".data ("https://www.youtube.com/watch?v=".data ++ id))
        = true := by
      rw [hwatch_yc, hwatch_v]
      rfl
    unfold normalize_youtube_url
    rw [if_neg hw1, if_pos hw2]
  have hnorm3 : normalize_youtube_url ("https://www.youtube.com/embed/".data ++ id)
      = "https://www.youtube.com/embed/".data ++ id := by
    have he1 : ¬ containsSub "youtu.be".data
        ("https://www.youtube.com/embed/".data ++ id) = true := by
      rw [hembed_nb]
      exact Bool.false_ne_true
    have he2 : ¬ (containsSub "youtube.com".data
          ("https://www.youtube.com/embed/".data ++ id)
        && containsSub "v=".data ("https://www.youtube.com/embed/".data ++ id))
        = true := by
      rw [hembed_yc, hembed_v]
      exact Bool.false_ne_true
    unfold normalize_youtube_url
    rw [if_neg he1, if_neg he2]
  refine ⟨hnorm1, hnorm2, hnorm3, ?_⟩
  rw [hnorm2, hnorm3]
  intro h
  have hlen := congrArg List.length h
  simp only [List.length_append] at hlen
  rw [show ("https://www.youtube.com/embed/".data).length = 30 from rfl,
    show ("https://www.youtube.com/watch?v=".data).length = 32 from rfl] at hlen
  omega

/-- Witness for C7 (amended) at the concrete id `dQw4w9WgXcQ`. -/
theorem url_normalization_watch_forms_witness :
    normalize_youtube_url ("https://youtu.be/".data ++ "dQw4w9WgXcQ".data)
      = "https://www.youtube.com/watch?v=".data ++ "dQw4w9WgXcQ".data
    ∧ normalize_youtube_url ("https://www.youtube.com/watch?v=".data ++ "dQw4w9WgXcQ".data)
      = "https://www.youtube.com/watch?v=".data ++ "dQw4w9WgXcQ".data :=
  ⟨(url_normalization_watch_forms "dQw4w9WgXcQ".data (by decide) (by decide)
      (by decide) (by decide)).1,
   (url_normalization_watch_forms "dQw4w9WgXcQ".data (by decide) (by decide)
      (by decide) (by decide)).2.1⟩

end YTApi
